import Mathlib

/-!
Shallow embedding of the Mental Health Awareness API backend (src/main.py)
and verification of its specification claims.

The service is a FastAPI app with five endpoints.  We embed each handler as
a pure Lean function: a handler that can raise `HTTPException` is modelled
as returning `Except HttpError α`, and the `/test` handler, which inspects
an optional database collaborator and two environment variables, takes that
ambient state as explicit parameters.  Python `int` is modelled as `Int`,
Python strings as `String`, Python `None` via `Option`.
-/

namespace MentalHealth

/-- Body of a successful `POST /api/quiz` response (src/main.py line 136). -/
structure QuizResult where
  score : Int
  level : String
  suggestion : String
deriving Repr, DecidableEq

/-- An `HTTPException` as raised by a handler (src/main.py line 116). -/
structure HttpError where
  status_code : Nat
  detail : String
deriving Repr, DecidableEq

/-- Suggestion attached to level "Low" (src/main.py lines 124-125; the Python
source concatenates two adjacent string literals). -/
def lowSuggestion : String :=
  "You seem to be doing okay. Keep up your routines and check in with yourself. Explore the tips section for daily maintenance."

/-- Suggestion attached to level "Moderate" (src/main.py line 128). -/
def moderateSuggestion : String :=
  "You may be experiencing some stress. Consider mindfulness, movement, and talking to someone you trust."

/-- Suggestion attached to level "Elevated" (src/main.py line 131). -/
def elevatedSuggestion : String :=
  "It might help to speak with a mental health professional. Check the helplines and consider scheduling a consult."

/-- Suggestion attached to level "High" (src/main.py line 134). -/
def highSuggestion : String :=
  "Please consider reaching out to a professional or a trusted person today. If you feel unsafe, contact your local crisis line immediately."

/-- `POST /api/quiz` handler `score_quiz` (src/main.py lines 113-136).
Rejects an empty list or any element outside `[0, 1, 2, 3]` with a 400
error, otherwise sums the answers and buckets the sum with inclusive upper
bounds 6 / 12 / 18. -/
def score_quiz (answers : List Int) : Except HttpError QuizResult :=
  if answers.isEmpty || answers.any (fun a => !(([0, 1, 2, 3] : List Int).contains a)) then
    Except.error ⟨400, "Answers must be a list of integers 0-3"⟩
  else
    let score := answers.sum
    if score ≤ 6 then
      Except.ok ⟨score, "Low", lowSuggestion⟩
    else if score ≤ 12 then
      Except.ok ⟨score, "Moderate", moderateSuggestion⟩
    else if score ≤ 18 then
      Except.ok ⟨score, "Elevated", elevatedSuggestion⟩
    else
      Except.ok ⟨score, "High", highSuggestion⟩

/-- The level the bucketing chain of `score_quiz` assigns to a given score
(the `if score <= 6 / elif ... ` chain of src/main.py lines 122-134). -/
def levelOf (score : Int) : String :=
  if score ≤ 6 then "Low"
  else if score ≤ 12 then "Moderate"
  else if score ≤ 18 then "Elevated"
  else "High"

/-- The suggestion the bucketing chain of `score_quiz` assigns to a given
score (same chain as `levelOf`). -/
def suggestionOf (score : Int) : String :=
  if score ≤ 6 then lowSuggestion
  else if score ≤ 12 then moderateSuggestion
  else if score ≤ 18 then elevatedSuggestion
  else highSuggestion

/-- Rank of a level name in the severity order Low < Moderate < Elevated < High. -/
def levelRank (level : String) : Nat :=
  if level = "Low" then 0
  else if level = "Moderate" then 1
  else if level = "Elevated" then 2
  else 3

/-- The validation guard of `score_quiz` is `true` exactly on the invalid
inputs: the empty list, or a list with an element outside `[0, 1, 2, 3]`. -/
lemma score_quiz_guard (answers : List Int) :
    (answers.isEmpty || answers.any (fun a => !(([0, 1, 2, 3] : List Int).contains a))) = true
      ↔ (answers = [] ∨ ∃ a ∈ answers, a ∉ ([0, 1, 2, 3] : List Int)) := by
  simp [List.isEmpty_iff, List.any_eq_true]

/-- On a valid input, `score_quiz` succeeds and returns the sum together with
the level and suggestion of the bucketing chain. -/
lemma score_quiz_valid (answers : List Int) (h1 : answers ≠ [])
    (h2 : ∀ a ∈ answers, a ∈ ([0, 1, 2, 3] : List Int)) :
    score_quiz answers =
      Except.ok ⟨answers.sum, levelOf answers.sum, suggestionOf answers.sum⟩ := by
  have hguard :
      (answers.isEmpty || answers.any (fun a => !(([0, 1, 2, 3] : List Int).contains a))) = false := by
    rw [Bool.eq_false_iff]
    intro hc
    rcases (score_quiz_guard answers).mp hc with h | ⟨a, ha, hmem⟩
    · exact h1 h
    · exact hmem (h2 a ha)
  unfold score_quiz
  rw [hguard]
  simp only [Bool.false_eq_true, if_false]
  unfold levelOf suggestionOf
  split_ifs <;> rfl

/-- Every element of a valid answer list lies between 0 and 3, so the sum is
between 0 and three times the length. -/
lemma sum_bounds : ∀ answers : List Int,
    (∀ a ∈ answers, a ∈ ([0, 1, 2, 3] : List Int)) →
    0 ≤ answers.sum ∧ answers.sum ≤ 3 * (answers.length : Int)
  | [], _ => by simp
  | a :: t, h => by
    have ha : a = 0 ∨ a = 1 ∨ a = 2 ∨ a = 3 := by simpa using h a (by simp)
    have ht := sum_bounds t (fun x hx => h x (by simp [hx]))
    simp only [List.sum_cons, List.length_cons]
    push_cast
    omega

/-- A pointwise bound between two integer lists bounds their sums. -/
lemma forall2_sum_le {a b : List Int} (h : List.Forall₂ (· ≤ ·) a b) :
    a.sum ≤ b.sum := by
  induction h with
  | nil => simp
  | cons hxy _ ih =>
    simp only [List.sum_cons]
    exact add_le_add hxy ih

/-- The bucketing chain is monotone: a smaller score never lands in a more
severe bucket. -/
lemma levelRank_levelOf_mono {s t : Int} (h : s ≤ t) :
    levelRank (levelOf s) ≤ levelRank (levelOf t) := by
  unfold levelOf
  split_ifs <;> first | decide | omega

/-- A score bucketed as "High" exceeds 18. -/
lemma levelOf_eq_high {s : Int} (h : levelOf s = "High") : 18 < s := by
  unfold levelOf at h
  split_ifs at h with h1 h2 h3
  · exact absurd h (by decide)
  · exact absurd h (by decide)
  · exact absurd h (by decide)
  · omega

/-- A static educational resource record (src/main.py lines 34-65). -/
structure Resource where
  title : String
  description : String
  url : String
  category : String
deriving Repr, DecidableEq

/-- Body of a `GET /api/resources` response (src/main.py line 73). -/
structure ResourcesResponse where
  resources : List Resource
  tips : List String
deriving Repr, DecidableEq

/-- `GET /api/resources` handler `get_resources` (src/main.py lines 32-73).
It takes no input and reads no state, so it is a constant. -/
def get_resources : ResourcesResponse :=
  { resources :=
      [ { title := "Understanding Anxiety"
          description := "Learn what anxiety is, common symptoms, and ways to cope."
          url := "https://www.nimh.nih.gov/health/topics/anxiety-disorders"
          category := "Education" },
        { title := "Depression: Signs and Support"
          description := "Recognize signs of depression and explore evidence-based treatments."
          url := "https://www.who.int/news-room/fact-sheets/detail/depression"
          category := "Education" },
        { title := "Mindfulness Exercises"
          description := "Short, practical mindfulness techniques to ground yourself."
          url := "https://www.mindful.org/meditation/mindfulness-getting-started/"
          category := "Self-Care" },
        { title := "Finding a Therapist"
          description := "Tips and directories to start therapy in your region."
          url := "https://www.psychologytoday.com/us/therapists"
          category := "Support" },
        { title := "Coping with Stress"
          description := "WHO guide to managing stress with practical strategies."
          url := "https://www.who.int/publications/i/item/9789240003927"
          category := "Self-Care" } ]
    tips :=
      [ "Breathe: Try 4-7-8 breathing for one minute.",
        "Move: A 10-minute walk can shift your mood.",
        "Connect: Text a friend and share how you’re feeling.",
        "Nourish: Drink water and have a balanced snack.",
        "Rest: Aim for a consistent sleep routine." ] }

/-- A static crisis-helpline record (src/main.py lines 78-109). -/
structure Helpline where
  region : String
  name : String
  contact : String
  url : String
deriving Repr, DecidableEq

/-- Body of a `GET /api/helplines` response (src/main.py line 110). -/
structure HelplinesResponse where
  helplines : List Helpline
deriving Repr, DecidableEq

/-- `GET /api/helplines` handler `get_helplines` (src/main.py lines 76-110).
It takes no input and reads no state, so it is a constant. -/
def get_helplines : HelplinesResponse :=
  { helplines :=
      [ { region := "United States"
          name := "988 Suicide & Crisis Lifeline"
          contact := "Call or text 988 | chat 988lifeline.org"
          url := "https://988lifeline.org/" },
        { region := "United Kingdom"
          name := "Samaritans"
          contact := "116 123 | jo@samaritans.org"
          url := "https://www.samaritans.org/" },
        { region := "Canada"
          name := "Talk Suicide Canada"
          contact := "1-833-456-4566 | text 45645"
          url := "https://www.talksuicide.ca/" },
        { region := "Australia"
          name := "Lifeline Australia"
          contact := "13 11 14 | lifeline.org.au"
          url := "https://www.lifeline.org.au/" },
        { region := "International"
          name := "Find a helpline"
          contact := "findahelpline.com"
          url := "https://findahelpline.com/" } ] }

/-- The database handle `db` exposed by the optional `database` module
(src/main.py lines 152-165).  `name` is `none` when the Python object has no
`name` attribute; the outcome of calling `list_collection_names()` is
modelled as data: either the returned list or the raised exception's
message. -/
structure DbHandle where
  name : Option String
  list_collection_names : Except String (List String)

/-- State of the optional `database` collaborator module when `/test` runs
(src/main.py lines 151-172): the import raises `ImportError`, the import
raises some other exception (caught by the generic handler), or the import
succeeds and binds `db`, which may be `None`. -/
inductive DbModuleState where
  | moduleMissing : DbModuleState
  | importFailure : String → DbModuleState
  | present : Option DbHandle → DbModuleState

/-- The two environment variables `/test` consults, as returned by
`os.getenv`: `none` when unset, otherwise the value. -/
structure Env where
  DATABASE_URL : Option String
  DATABASE_NAME : Option String
deriving Repr, DecidableEq

/-- Python truthiness of an `os.getenv` result: `None` and the empty string
are falsy, every other string is truthy. -/
def pyTruthy (v : Option String) : Bool :=
  match v with
  | none => false
  | some s => !s.isEmpty

/-- The `/test` response dict (src/main.py lines 142-149).  `database_url`
and `database_name` start as Python `None`, hence `Option String`. -/
structure TestResponse where
  backend : String
  database : String
  database_url : Option String
  database_name : Option String
  connection_status : String
  collections : List String
deriving Repr, DecidableEq

/-- `GET /test` handler `test_database` (src/main.py lines 139-178), as a
function of the collaborator state and the environment.  Mirrors the source
sequentially: the initial dict, the try/except over the import and the
collection listing, then the unconditional final overwrite of
`database_url` and `database_name` from the environment. -/
def test_database (st : DbModuleState) (env : Env) : TestResponse :=
  let r0 : TestResponse :=
    { backend := "✅ Running"
      database := "❌ Not Available"
      database_url := none
      database_name := none
      connection_status := "Not Connected"
      collections := [] }
  let r1 : TestResponse :=
    match st with
    | DbModuleState.moduleMissing =>
        { r0 with database := "❌ Database module not found (run enable-database first)" }
    | DbModuleState.importFailure msg =>
        { r0 with database := "❌ Error: " ++ msg.take 50 }
    | DbModuleState.present none =>
        { r0 with database := "⚠️  Available but not initialized" }
    | DbModuleState.present (some db) =>
        let r2 : TestResponse :=
          { r0 with
            database := "✅ Available"
            database_url := some "✅ Configured"
            database_name := some (match db.name with
              | some n => n
              | none => "✅ Connected")
            connection_status := "Connected" }
        match db.list_collection_names with
        | Except.ok collections =>
            { r2 with
              collections := collections.take 10
              database := "✅ Connected & Working" }
        | Except.error e =>
            { r2 with database := "⚠️  Connected but Error: " ++ e.take 50 }
  { r1 with
    database_url := some (if pyTruthy env.DATABASE_URL then "✅ Set" else "❌ Not Set")
    database_name := some (if pyTruthy env.DATABASE_NAME then "✅ Set" else "❌ Not Set") }

/-- The `/test` route never raises, so at the HTTP layer it always succeeds. -/
def test_database_route (st : DbModuleState) (env : Env) : Except HttpError TestResponse :=
  Except.ok (test_database st env)

/-- HTTP status of a handler outcome: the exception's status code when one
is raised, otherwise FastAPI's default 200. -/
def statusOf {α : Type} : Except HttpError α → Nat
  | Except.error e => e.status_code
  | Except.ok _ => 200

/-- `needle` occurs as a contiguous run inside `hay`. -/
def containsSub (needle : List Char) : List Char → Bool
  | [] => needle.isEmpty
  | c :: t => needle.isPrefixOf (c :: t) || containsSub needle t

/-- The characters of a string, lower-cased. -/
def lowerData (s : String) : List Char :=
  s.data.map Char.toLower

/-- C1: for every non-empty answer sequence whose elements all lie in
{0,1,2,3}, `POST /api/quiz` succeeds with score equal to the arithmetic sum
of the elements, and the level is determined by inclusive upper bounds
evaluated in order (≤ 6 "Low", ≤ 12 "Moderate", ≤ 18 "Elevated", else
"High"); in particular the boundary sum 6, e.g. answers [2,2,2], yields
"Low". -/
theorem quiz_sum_and_buckets (answers : List Int) (h1 : answers ≠ [])
    (h2 : ∀ a ∈ answers, a ∈ ([0, 1, 2, 3] : List Int)) :
    score_quiz answers =
      Except.ok ⟨answers.sum,
        if answers.sum ≤ 6 then "Low"
        else if answers.sum ≤ 12 then "Moderate"
        else if answers.sum ≤ 18 then "Elevated"
        else "High",
        suggestionOf answers.sum⟩
    ∧ score_quiz [2, 2, 2] = Except.ok ⟨6, "Low", lowSuggestion⟩ := by
  refine ⟨?_, by rfl⟩
  rw [score_quiz_valid answers h1 h2]
  rfl

/-- Witness for C1 at the boundary input [2,2,2]. -/
theorem quiz_sum_and_buckets_witness :
    score_quiz [2, 2, 2] = Except.ok ⟨6, "Low", lowSuggestion⟩ :=
  (quiz_sum_and_buckets [2, 2, 2] (by decide) (by decide)).2

/-- C2: `POST /api/quiz` fails with status 400 and detail "Answers must be a
list of integers 0-3" if and only if the answer list is empty or some
element lies outside {0,1,2,3}; for every such invalid input no success
body is produced. -/
theorem quiz_validation_iff (answers : List Int) :
    (score_quiz answers = Except.error ⟨400, "Answers must be a list of integers 0-3"⟩
      ↔ (answers = [] ∨ ∃ a ∈ answers, a ∉ ([0, 1, 2, 3] : List Int)))
    ∧ ((answers = [] ∨ ∃ a ∈ answers, a ∉ ([0, 1, 2, 3] : List Int)) →
        ∀ r : QuizResult, score_quiz answers ≠ Except.ok r) := by
  by_cases hb :
      (answers.isEmpty || answers.any (fun a => !(([0, 1, 2, 3] : List Int).contains a))) = true
  · have herr : score_quiz answers =
        Except.error ⟨400, "Answers must be a list of integers 0-3"⟩ := by
      unfold score_quiz
      rw [if_pos hb]
    refine ⟨⟨fun _ => (score_quiz_guard answers).mp hb, fun _ => herr⟩, ?_⟩
    intro _ r
    rw [herr]
    simp
  · have hcond : ¬ (answers = [] ∨ ∃ a ∈ answers, a ∉ ([0, 1, 2, 3] : List Int)) := by
      intro hc
      exact hb ((score_quiz_guard answers).mpr hc)
    have h1 : answers ≠ [] := fun h => hcond (Or.inl h)
    have h2 : ∀ a ∈ answers, a ∈ ([0, 1, 2, 3] : List Int) := by
      intro a ha
      by_contra hmem
      exact hcond (Or.inr ⟨a, ha, hmem⟩)
    have hok := score_quiz_valid answers h1 h2
    refine ⟨⟨fun h => absurd (hok ▸ h) (by simp), fun hc => absurd hc hcond⟩,
      fun hc => absurd hc hcond⟩

/-- Witness for C2: the out-of-range input [4] from the spec is rejected. -/
theorem quiz_validation_iff_witness :
    score_quiz [4] = Except.error ⟨400, "Answers must be a list of integers 0-3"⟩ :=
  ((quiz_validation_iff [4]).1).mpr (Or.inr ⟨4, by decide, by decide⟩)

/-- C3: `GET /test` returns HTTP status 200 for every collaborator state
(module missing, import failing, handle `None`, or a live handle whose
collection listing succeeds or throws) and every environment; it never
produces an HTTP error. -/
theorem test_always_200 (st : DbModuleState) (env : Env) :
    statusOf (test_database_route st env) = 200
    ∧ ∀ e : HttpError, test_database_route st env ≠ Except.error e := by
  exact ⟨rfl, fun e h => by simp [test_database_route] at h⟩

/-- C4: the `database` field of `/test` reports "module not found" when the
module is absent, "available but not initialized" (case-insensitively) when
the handle is null, and with a live handle it reports connected, stores the
collection names truncated to the first 10, and on a listing failure embeds
the exception message truncated to 50 characters. -/
theorem test_database_reporting (env : Env) (db : DbHandle) :
    ((test_database DbModuleState.moduleMissing env).database
        = "❌ Database module not found (run enable-database first)"
      ∧ containsSub (lowerData "module not found")
          (lowerData (test_database DbModuleState.moduleMissing env).database) = true)
    ∧ ((test_database (DbModuleState.present none) env).database
        = "⚠️  Available but not initialized"
      ∧ containsSub (lowerData "available but not initialized")
          (lowerData (test_database (DbModuleState.present none) env).database) = true)
    ∧ (test_database (DbModuleState.present (some db)) env).connection_status = "Connected"
    ∧ (test_database (DbModuleState.present (some db)) env).database
        = (match db.list_collection_names with
           | Except.ok _ => "✅ Connected & Working"
           | Except.error e => "⚠️  Connected but Error: " ++ e.take 50)
    ∧ (test_database (DbModuleState.present (some db)) env).collections
        = (match db.list_collection_names with
           | Except.ok collections => collections.take 10
           | Except.error _ => []) := by
  obtain ⟨dbname, lcn⟩ := db
  refine ⟨⟨rfl, ?_⟩, ⟨rfl, ?_⟩, ?_, ?_, ?_⟩
  · rw [show (test_database DbModuleState.moduleMissing env).database
        = "❌ Database module not found (run enable-database first)" from rfl]
    decide
  · rw [show (test_database (DbModuleState.present none) env).database
        = "⚠️  Available but not initialized" from rfl]
    decide
  all_goals cases lcn <;> rfl

/-- C5 as stated is false: the `database_url` field does not report the
boolean presence of `DATABASE_URL`.  With the variable present but set to
the empty string, the code reports the "not set" marker. -/
theorem env_presence_counterexample :
    (test_database DbModuleState.moduleMissing
        ⟨some "", none⟩).database_url
      ≠ some (if (some "" : Option String).isSome then "✅ Set" else "❌ Not Set") := by
  decide

/-- C5 amended: in every `/test` response the `database_url` and
`database_name` fields are exactly the fixed "set"/"not set" markers chosen
by Python truthiness of the corresponding environment variable (set to a
non-empty string), never the variables' values, and both fields are
independent of the collaborator state. -/
theorem env_fields_report_truthiness (st st' : DbModuleState) (env : Env) :
    (test_database st env).database_url
        = some (if pyTruthy env.DATABASE_URL then "✅ Set" else "❌ Not Set")
    ∧ (test_database st env).database_name
        = some (if pyTruthy env.DATABASE_NAME then "✅ Set" else "❌ Not Set")
    ∧ (test_database st env).database_url = (test_database st' env).database_url
    ∧ (test_database st env).database_name = (test_database st' env).database_name := by
  exact ⟨rfl, rfl, rfl, rfl⟩

/-- C6: `GET /api/resources` always returns exactly 5 resources and exactly
5 tips; as a function of no input and no state its ordered content is the
same on every call, pinned here by the ordered title list and tip list. -/
theorem resources_fixed_five :
    get_resources.resources.length = 5
    ∧ get_resources.tips.length = 5
    ∧ get_resources.resources.map Resource.title
        = ["Understanding Anxiety", "Depression: Signs and Support",
           "Mindfulness Exercises", "Finding a Therapist", "Coping with Stress"]
    ∧ get_resources.tips.head? = some "Breathe: Try 4-7-8 breathing for one minute." := by
  exact ⟨rfl, rfl, rfl, rfl⟩

/-- C7: `GET /api/helplines` always returns exactly 5 helplines; as a
function of no input and no state its ordered content is the same on every
call, pinned here by the ordered name list. -/
theorem helplines_fixed_five :
    get_helplines.helplines.length = 5
    ∧ get_helplines.helplines.map Helpline.name
        = ["988 Suicide & Crisis Lifeline", "Samaritans", "Talk Suicide Canada",
           "Lifeline Australia", "Find a helpline"] := by
  exact ⟨rfl, rfl⟩

/-- C8: `POST /api/quiz` is deterministic: two invocations on the identical
valid answer sequence produce the identical successful response. -/
theorem quiz_deterministic (a b : List Int) (hab : a = b) (h1 : a ≠ [])
    (h2 : ∀ x ∈ a, x ∈ ([0, 1, 2, 3] : List Int)) :
    score_quiz a = score_quiz b
    ∧ ∃ r : QuizResult, score_quiz a = Except.ok r ∧ score_quiz b = Except.ok r := by
  subst hab
  exact ⟨rfl, ⟨_, score_quiz_valid a h1 h2, score_quiz_valid a h1 h2⟩⟩

/-- Witness for C8 at the input [1,2,3]. -/
theorem quiz_deterministic_witness :
    score_quiz [1, 2, 3] = score_quiz [1, 2, 3]
    ∧ ∃ r : QuizResult, score_quiz [1, 2, 3] = Except.ok r
        ∧ score_quiz [1, 2, 3] = Except.ok r :=
  quiz_deterministic [1, 2, 3] [1, 2, 3] rfl (by decide) (by decide)

/-- C9: quiz scoring is monotone: for valid answer sequences of the same
length compared pointwise, the smaller sequence's sum is no larger and its
level is not above the other's in the order Low < Moderate < Elevated <
High. -/
theorem quiz_monotone (a b : List Int)
    (ha1 : a ≠ []) (ha2 : ∀ x ∈ a, x ∈ ([0, 1, 2, 3] : List Int))
    (hb1 : b ≠ []) (hb2 : ∀ x ∈ b, x ∈ ([0, 1, 2, 3] : List Int))
    ( _hlen : a.length = b.length)
    (hle : List.Forall₂ (· ≤ ·) a b) :
    a.sum ≤ b.sum
    ∧ ∃ ra rb : QuizResult,
        score_quiz a = Except.ok ra ∧ score_quiz b = Except.ok rb
        ∧ levelRank ra.level ≤ levelRank rb.level := by
  have hsum := forall2_sum_le hle
  exact ⟨hsum, ⟨_, _, score_quiz_valid a ha1 ha2, score_quiz_valid b hb1 hb2,
    levelRank_levelOf_mono hsum⟩⟩

/-- Witness for C9 at the pointwise-ordered pair [0,1,2] ≤ [1,2,3]. -/
theorem quiz_monotone_witness :
    ([0, 1, 2] : List Int).sum ≤ ([1, 2, 3] : List Int).sum
    ∧ ∃ ra rb : QuizResult,
        score_quiz [0, 1, 2] = Except.ok ra ∧ score_quiz [1, 2, 3] = Except.ok rb
        ∧ levelRank ra.level ≤ levelRank rb.level :=
  quiz_monotone [0, 1, 2] [1, 2, 3] (by decide) (by decide) (by decide) (by decide)
    rfl (List.Forall₂.cons (by decide)
      (List.Forall₂.cons (by decide) (List.Forall₂.cons (by decide) List.Forall₂.nil)))

/-- C10: for every valid answer sequence of length n the score lies in
[0, 3n]; hence every valid sequence of length at most 2 yields level "Low",
and level "High" requires length at least 7. -/
theorem quiz_score_bounds (answers : List Int) (h1 : answers ≠ [])
    (h2 : ∀ a ∈ answers, a ∈ ([0, 1, 2, 3] : List Int)) :
    0 ≤ answers.sum ∧ answers.sum ≤ 3 * (answers.length : Int)
    ∧ (answers.length ≤ 2 →
        ∃ r : QuizResult, score_quiz answers = Except.ok r ∧ r.level = "Low")
    ∧ (∀ r : QuizResult,
        score_quiz answers = Except.ok r → r.level = "High" → 7 ≤ answers.length) := by
  obtain ⟨hlo, hhi⟩ := sum_bounds answers h2
  have hok := score_quiz_valid answers h1 h2
  refine ⟨hlo, hhi, ?_, ?_⟩
  · intro hlen
    refine ⟨_, hok, ?_⟩
    have hcast : (answers.length : Int) ≤ 2 := by exact_mod_cast hlen
    have h6 : answers.sum ≤ 6 := by omega
    show levelOf answers.sum = "Low"
    unfold levelOf
    rw [if_pos h6]
  · intro r hr hhigh
    rw [hok] at hr
    have hlevel : r.level = levelOf answers.sum := by
      rw [Except.ok.injEq] at hr
      rw [← hr]
    have h18 : 18 < answers.sum := levelOf_eq_high (hlevel ▸ hhigh)
    by_contra hlt
    have hcast : (answers.length : Int) ≤ 6 := by
      have : answers.length ≤ 6 := by omega
      exact_mod_cast this
    omega

/-- Witness for C10 at the length-2 input [3,3]. -/
theorem quiz_score_bounds_witness :
    (0 : Int) ≤ ([3, 3] : List Int).sum
    ∧ ([3, 3] : List Int).sum ≤ 3 * (([3, 3] : List Int).length : Int)
    ∧ (([3, 3] : List Int).length ≤ 2 →
        ∃ r : QuizResult, score_quiz [3, 3] = Except.ok r ∧ r.level = "Low")
    ∧ (∀ r : QuizResult,
        score_quiz [3, 3] = Except.ok r → r.level = "High" → 7 ≤ ([3, 3] : List Int).length) :=
  quiz_score_bounds [3, 3] (by decide) (by decide)

end MentalHealth
